import Mathlib

/-!
Verification development for the Mississippi Weather Desk core
(geospatial risk aggregation and briefing synthesis).

The Python modules `src/models.py`, `src/geo.py` and `src/analyze.py`
(together with the pure helpers of `src/fetch_spc.py`, `src/fetch_wpc.py`
and `src/fetch_nws.py`) are shallowly embedded below:

* Python dicts are embedded as insertion-ordered association lists with
  `dictGet` / `dictSet` implementing `dict.get` / `dict.__setitem__`.
* Python floats of the ray-casting code are embedded as rationals.
* The choice between the Shapely intersection path and the centroid
  fallback in `get_counties_in_outlook` depends on library availability;
  it is abstracted as an explicit `resolve` parameter, and the in-repo
  fallback `intersect_counties_with_point_check` is embedded concretely.
* Network fetches in `build_briefing` are embedded as `Except` inputs:
  `.error` plays the role of a raised exception in a `try` block.
-/

/-! ## models.py: risk enumerations -/

/-- SPC categorical risk levels (`models.SPCRisk`). -/
inductive SPCRisk where
  | TSTM | MRGL | SLGT | ENH | MDT | HIGH | NONE
deriving DecidableEq, Repr, Fintype

/-- WPC Excessive Rainfall Outlook categories (`models.EROCategory`). -/
inductive EROCategory where
  | MRGL | SLGT | MDT | HIGH | NONE
deriving DecidableEq, Repr, Fintype

/-- A risk value of either scale.  In Python the two enums share untyped
dict slots (`Dict[str, Any]`), so the embedding uses their sum. -/
inductive Risk where
  | spc (r : SPCRisk)
  | ero (e : EROCategory)
deriving DecidableEq, Repr, Fintype

/-! ## Python-semantics helpers -/

/-- Truthiness of an optional string (`None` and `""` are falsy). -/
def pyTruthyStr : Option String → Bool
  | none => false
  | some s => s ≠ ""

/-- Truthiness of an optional int (`None` and `0` are falsy). -/
def pyTruthyInt : Option Int → Bool
  | none => false
  | some n => n ≠ 0

/-- Truthiness of an optional rational (`None` and `0` are falsy). -/
def pyTruthyQ : Option ℚ → Bool
  | none => false
  | some q => q ≠ 0

/-- Rendering of an optional string inside an f-string (`None` prints as
the four letters `None`). -/
def pyShowOptStr : Option String → String
  | none => "None"
  | some s => s

/-- Does the needle match at the head of the haystack? -/
def strAt : List Char → List Char → Bool
  | [], _ => true
  | _ :: _, [] => false
  | n :: ns, h :: hs => n == h && strAt ns hs

/-- Does the needle occur anywhere in the haystack? -/
def strFind : List Char → List Char → Bool
  | ns, [] => strAt ns []
  | ns, h :: hs => strAt ns (h :: hs) || strFind ns hs

/-- Python substring test `needle in hay`. -/
def pyIn (needle hay : String) : Bool := strFind needle.data hay.data

/-- One pass of Python `str.replace`: replace non-overlapping occurrences
left to right; the fuel is the haystack length, consumed one character per
step (the patterns the code uses are nonempty). -/
def pyReplaceGo (pat rep : List Char) : Nat → List Char → List Char
  | _, [] => []
  | 0, l => l
  | fuel + 1, c :: cs =>
    if strAt pat (c :: cs) then rep ++ pyReplaceGo pat rep fuel (List.drop (pat.length - 1) cs)
    else c :: pyReplaceGo pat rep fuel cs

/-- Python `s.replace(pat, rep)` for a nonempty pattern. -/
def pyReplace (s pat rep : String) : String :=
  ⟨pyReplaceGo pat.data rep.data s.data.length s.data⟩

/-- One step of `str.title`: the flag records whether the previous
character was alphabetic. -/
def pyTitleGo : Bool → List Char → List Char
  | _, [] => []
  | prevAlpha, c :: cs =>
    if c.isAlpha then (if prevAlpha then c.toLower else c.toUpper) :: pyTitleGo true cs
    else c :: pyTitleGo false cs

/-- Python `str.title()` (ASCII case mapping). -/
def pyTitle (s : String) : String := ⟨pyTitleGo false s.data⟩

/-! ## Python dicts as insertion-ordered association lists -/

/-- Lookup (`dict.get`): the first binding of the key, if any. -/
def dictGet {α : Type} (d : List (String × α)) (k : String) : Option α :=
  (d.find? (fun p => p.1 == k)).map (·.2)

/-- Assignment (`d[k] = v`): replace the binding in place if the key is
present, otherwise append it, as Python dicts preserve insertion order. -/
def dictSet {α : Type} (d : List (String × α)) (k : String) (v : α) : List (String × α) :=
  if d.any (fun p => p.1 == k) then d.map (fun p => if p.1 == k then (k, v) else p)
  else d ++ [(k, v)]

/-- Extensional equality of embedded dicts: Python `==` on dicts compares
key sets and values but not insertion order. -/
def dictEquiv {α : Type} (d₁ d₂ : List (String × α)) : Prop :=
  ∀ k, dictGet d₁ k = dictGet d₂ k

/-! ## geo.py: risk ordering -/

/-- Priority table for SPC risks (`geo.should_upgrade_risk`). -/
def spcPriority : SPCRisk → Nat
  | .NONE => 0 | .TSTM => 1 | .MRGL => 2 | .SLGT => 3
  | .ENH => 4 | .MDT => 5 | .HIGH => 6

/-- Priority table for ERO categories (`geo.should_upgrade_risk`). -/
def eroPriority : EROCategory → Nat
  | .NONE => 0 | .MRGL => 1 | .SLGT => 2 | .MDT => 3 | .HIGH => 4

/-- The combined lookup `spc_priority.get(v, ero_priority.get(v, 0))`. -/
def riskPriority : Risk → Nat
  | .spc r => spcPriority r
  | .ero e => eroPriority e

/-- `geo.should_upgrade_risk`: is the new risk strictly higher priority? -/
def should_upgrade_risk (current new : Risk) : Bool :=
  riskPriority new > riskPriority current

/-! ## geo.py: ray casting and centroid fallback -/

/-- One vertex of a ring, `(lon, lat)`.  ESRI vertices may carry extra
coordinates; only indices 0 and 1 are read by the code. -/
abbrev Vertex := ℚ × ℚ

/-- A polygon ring. -/
abbrev PolyRing := List Vertex

/-- The edge-crossing test of the ray-casting loop in
`geo.point_in_polygon` for the edge from `(xi, yi)` to `(xj, yj)` and the
test point `(x, y)`. -/
def pipCrosses (x y xi yi xj yj : ℚ) : Bool :=
  (decide (yi > y) != decide (yj > y)) &&
    decide (x < (xj - xi) * (y - yi) / (yj - yi) + xi)

/-- Division-free form of the edge-crossing test, used to express that the
division in `pipCrosses` is always guarded by a non-horizontal edge. -/
def pipCrossesNoDiv (x y xi yi xj yj : ℚ) : Bool :=
  (decide (yi > y) != decide (yj > y)) &&
    (if yj > y then decide ((x - xi) * (yj - yi) < (xj - xi) * (y - yi))
     else decide ((xj - xi) * (y - yi) < (x - xi) * (yj - yi)))

/-- `geo.point_in_polygon`: even-odd ray casting against the outer (first)
ring only.  The loop pairs `ring[i]` with `ring[j]` where `j` starts at
`n - 1` and then trails `i` by one. -/
def point_in_polygon (point : ℚ × ℚ) (polygon_rings : List PolyRing) : Bool :=
  match polygon_rings with
  | [] => false
  | ring :: _ =>
    match ring with
    | [] => false
    | v0 :: vs =>
      let edges := List.zip (v0 :: vs) ((v0 :: vs).getLastD v0 :: v0 :: vs)
      edges.foldl
        (fun inside e =>
          if pipCrosses point.1 point.2 e.1.1 e.1.2 e.2.1 e.2.2 then !inside else inside)
        false

/-- Same skeleton as `point_in_polygon` with the division-free test. -/
def point_in_polygon_nodiv (point : ℚ × ℚ) (polygon_rings : List PolyRing) : Bool :=
  match polygon_rings with
  | [] => false
  | ring :: _ =>
    match ring with
    | [] => false
    | v0 :: vs =>
      let edges := List.zip (v0 :: vs) ((v0 :: vs).getLastD v0 :: v0 :: vs)
      edges.foldl
        (fun inside e =>
          if pipCrossesNoDiv point.1 point.2 e.1.1 e.1.2 e.2.1 e.2.2 then !inside else inside)
        false

/-- A county configuration entry (one element of `ms_counties.json`,
read with `.get`, so every field may be absent). -/
structure County where
  name : Option String
  region : Option String
  lat : Option ℚ
  lon : Option ℚ
deriving DecidableEq, Repr

/-- `geo.intersect_counties_with_point_check`: the centroid fallback of
the spatial resolver. -/
def intersect_counties_with_point_check
    (polygon_rings : List PolyRing) (counties : List County) : List String :=
  counties.foldl
    (fun acc c =>
      match c.lat, c.lon with
      | some lat, some lon =>
        if pyTruthyStr c.name then
          if point_in_polygon (lon, lat) polygon_rings then acc ++ [c.name.getD ""] else acc
        else acc
      | _, _ => acc)
    []

/-! ## geo.py: county risk aggregation -/

/-- One outlook polygon record with its risk tag, as consumed by
`get_counties_in_outlook` (`rings`, `risk`, `category` keys). -/
structure OutlookPoly where
  rings : List PolyRing
  risk : Option Risk
  category : Option Risk
deriving DecidableEq, Repr

/-- Python `a or b` on two optional enum values (enum members are always
truthy, `None` is falsy). -/
def pyOr (a b : Option Risk) : Option Risk :=
  match a with
  | some x => some x
  | none => b

/-- The effective risk tag of a polygon:
`polygon_data.get("risk") or polygon_data.get("category")`. -/
def effRisk (p : OutlookPoly) : Option Risk := pyOr p.risk p.category

/-- The per-county update of the aggregation loop: keep the stored risk
unless the candidate should upgrade it. -/
def updateCounty (d : List (String × Risk)) (county : String) (r : Risk) :
    List (String × Risk) :=
  match dictGet d county with
  | none => dictSet d county r
  | some cur => if should_upgrade_risk cur r then dictSet d county r else d

/-- `geo.get_counties_in_outlook`, with the spatial resolver abstracted as
`resolve` (the code picks Shapely or the centroid fallback from library
availability; both depend only on the rings). -/
def get_counties_in_outlook
    (resolve : List PolyRing → List String) (outlook_polygons : List OutlookPoly) :
    List (String × Risk) :=
  outlook_polygons.foldl
    (fun county_risks p =>
      match effRisk p with
      | none => county_risks
      | some r =>
        if p.rings.isEmpty then county_risks
        else (resolve p.rings).foldl (fun d county => updateCounty d county r) county_risks)
    []

/-- Appending into a dict of lists (`by_region[region].append(name)`). -/
def dictListAppend {α : Type} (d : List (String × List α)) (k : String) (a : α) :
    List (String × List α) :=
  if d.any (fun p => p.1 == k) then
    d.map (fun p => if p.1 == k then (p.1, p.2 ++ [a]) else p)
  else d ++ [(k, [a])]

/-- `geo.get_counties_by_region`. -/
def get_counties_by_region (counties : List County) : List (String × List String) :=
  counties.foldl
    (fun by_region c =>
      let region := c.region.getD "Unknown"
      if pyTruthyStr c.name then dictListAppend by_region region (c.name.getD "")
      else by_region)
    []

/-- The county-to-region dict comprehension of
`geo.get_highest_risk_by_region`.  On an entry with a truthy name but a
missing region Python raises `KeyError`; theorems about this function
assume named entries carry a region, so the `getD ""` branch is never
relevant there. -/
def countyToRegion (counties : List County) : List (String × String) :=
  counties.foldl
    (fun d c =>
      if pyTruthyStr c.name then dictSet d (c.name.getD "") (c.region.getD "") else d)
    []

/-- `geo.get_highest_risk_by_region`. -/
def get_highest_risk_by_region
    (county_risks : List (String × Risk)) (counties : List County) :
    List (String × Risk) :=
  let county_to_region := countyToRegion counties
  county_risks.foldl
    (fun region_risks kv =>
      let region := (dictGet county_to_region kv.1).getD "Unknown"
      match dictGet region_risks region with
      | none => dictSet region_risks region kv.2
      | some cur =>
        if should_upgrade_risk cur kv.2 then dictSet region_risks region kv.2
        else region_risks)
    []

/-! ## The two risk scales as ordered tables (spec section 4.2) -/

/-- The severe scale in spec order. -/
def severeScale : List Risk :=
  [.spc .NONE, .spc .TSTM, .spc .MRGL, .spc .SLGT, .spc .ENH, .spc .MDT, .spc .HIGH]

/-- The rainfall scale in spec order. -/
def rainfallScale : List Risk :=
  [.ero .NONE, .ero .MRGL, .ero .SLGT, .ero .MDT, .ero .HIGH]

/-- Membership of two values in one common scale. -/
def inSameScale (x y : Risk) : Prop :=
  (x ∈ severeScale ∧ y ∈ severeScale) ∨ (x ∈ rainfallScale ∧ y ∈ rainfallScale)

instance (x y : Risk) : Decidable (inSameScale x y) := by
  unfold inSameScale
  infer_instance

/-! ## Lemmas: ray casting -/

/-- The crossing guard forces a non-horizontal edge. -/
lemma pip_guard_ne {y yi yj : ℚ} (h : (decide (yi > y) != decide (yj > y)) = true) :
    yi ≠ yj := by
  intro hEq
  subst hEq
  simp at h

/-- The edge-crossing test does not depend on the orientation of the edge. -/
lemma pipCrosses_symm (x y xi yi xj yj : ℚ) :
    pipCrosses x y xi yi xj yj = pipCrosses x y xj yj xi yi := by
  unfold pipCrosses
  rcases h : (decide (yi > y) != decide (yj > y)) with _ | _
  · have h2 : (decide (yj > y) != decide (yi > y)) = false := by
      revert h
      cases decide (yi > y) <;> cases decide (yj > y) <;> simp
    simp [h, h2]
  · have h2 : (decide (yj > y) != decide (yi > y)) = true := by
      revert h
      cases decide (yi > y) <;> cases decide (yj > y) <;> simp
    have hne : yi ≠ yj := pip_guard_ne h
    have hne1 : yj - yi ≠ 0 := sub_ne_zero_of_ne (Ne.symm hne)
    have hne2 : yi - yj ≠ 0 := sub_ne_zero_of_ne hne
    have hT : (xj - xi) * (y - yi) / (yj - yi) + xi
        = (xi - xj) * (y - yj) / (yi - yj) + xj := by
      field_simp
      ring
    simp [h, h2, hT]

/-- The edge-crossing test agrees with its division-free form. -/
lemma pipCrosses_eq_nodiv (x y xi yi xj yj : ℚ) :
    pipCrosses x y xi yi xj yj = pipCrossesNoDiv x y xi yi xj yj := by
  unfold pipCrosses pipCrossesNoDiv
  rcases h : (decide (yi > y) != decide (yj > y)) with _ | _
  · simp [h]
  · simp only [h, Bool.true_and]
    by_cases hj : yj > y
    · have hi : ¬ yi > y := by
        revert h
        simp only [bne_iff_ne, ne_eq, decide_eq_decide]
        intro h
        intro hi
        exact h (iff_of_true hi hj)
      have hd : 0 < yj - yi := by
        push_neg at hi
        linarith
      simp only [if_pos hj, decide_eq_decide]
      rw [← sub_lt_iff_lt_add, lt_div_iff₀ hd]
    · have hi : yi > y := by
        revert h
        simp only [bne_iff_ne, ne_eq, decide_eq_decide]
        intro h
        by_contra hi
        exact h (iff_of_false hi hj)
      have hd : yj - yi < 0 := by
        push_neg at hj
        linarith
      simp only [if_neg hj, decide_eq_decide]
      rw [← sub_lt_iff_lt_add, lt_div_iff_of_neg hd]

/-- The ray caster agrees with its division-free form on every input. -/
lemma point_in_polygon_eq_nodiv (point : ℚ × ℚ) (rings : List PolyRing) :
    point_in_polygon point rings = point_in_polygon_nodiv point rings := by
  have hcr : pipCrosses = pipCrossesNoDiv := by
    funext a b c d e f
    exact pipCrosses_eq_nodiv a b c d e f
  unfold point_in_polygon point_in_polygon_nodiv
  rw [hcr]

/-- The outer ring is degenerate: absent, or fewer than 3 vertices. -/
def shortOuterRing (rings : List PolyRing) : Prop :=
  match rings with
  | [] => True
  | r :: _ => r.length < 3

instance (rings : List PolyRing) : Decidable (shortOuterRing rings) := by
  unfold shortOuterRing
  cases rings <;> infer_instance

/-- C10: the edge-crossing division is guarded — the guard forces
`yi ≠ yj` — and the whole ray caster equals its division-free form, so it
is total and never divides by zero on any ring. -/
theorem claim10_ray_casting_total :
    (∀ y yi yj : ℚ, (decide (yi > y) != decide (yj > y)) = true → yi ≠ yj) ∧
    (∀ x y xi yi xj yj : ℚ,
      pipCrosses x y xi yi xj yj = pipCrossesNoDiv x y xi yi xj yj) ∧
    (∀ (point : ℚ × ℚ) (rings : List PolyRing),
      point_in_polygon point rings = point_in_polygon_nodiv point rings) :=
  ⟨fun _ _ _ h => pip_guard_ne h,
   pipCrosses_eq_nodiv,
   point_in_polygon_eq_nodiv⟩

/-- C10 witness: the guard hypothesis discharged at a concrete edge. -/
theorem claim10_witness : (0 : ℚ) ≠ 7 :=
  claim10_ray_casting_total.1 3 0 7 (by norm_num)

/-- The square test ring of the spec. -/
def squareRing : PolyRing := [(0,0),(10,0),(10,10),(0,10),(0,0)]

/-- C7: even-odd ray casting on the outer ring only: `(5,5)` is inside the
test square, `(15,5)` is outside, and any outer ring with fewer than 3
vertices (or no ring at all) yields outside for every test point. -/
theorem claim7_point_in_polygon :
    point_in_polygon (5, 5) [squareRing] = true ∧
    point_in_polygon (15, 5) [squareRing] = false ∧
    (∀ (point : ℚ × ℚ) (rings : List PolyRing),
      shortOuterRing rings → point_in_polygon point rings = false) := by
  refine ⟨?_, ?_, ?_⟩
  · norm_num [point_in_polygon, squareRing, pipCrosses, List.getLastD]
  · norm_num [point_in_polygon, squareRing, pipCrosses, List.getLastD]
  · rintro ⟨x, y⟩ rings hshort
    match rings with
    | [] => rfl
    | [] :: _ => rfl
    | [v] :: _ =>
      simp [point_in_polygon, pipCrosses, List.getLastD]
    | [v, w] :: _ =>
      have hc2 : pipCrosses x y w.1 w.2 v.1 v.2 = pipCrosses x y v.1 v.2 w.1 w.2 :=
        pipCrosses_symm x y w.1 w.2 v.1 v.2
      cases hc : pipCrosses x y v.1 v.2 w.1 w.2 <;>
        simp [point_in_polygon, List.getLastD, hc2, hc]
    | (a :: b :: c :: _) :: _ =>
      exfalso
      simp only [shortOuterRing, List.length_cons] at hshort
      omega

/-- C7 witness: the degenerate-ring hypothesis discharged concretely. -/
theorem claim7_witness : point_in_polygon ((1 : ℚ), 2) [[(0, 0), (3, 3)]] = false :=
  claim7_point_in_polygon.2.2 (1, 2) [[(0, 0), (3, 3)]] (by norm_num [shortOuterRing])

/-! ## C3: the upgrade comparison against the ordered scale tables -/

/-- C3: restricted to one scale, `should_upgrade_risk` holds exactly when
the candidate sits strictly later in that scale table, and the comparison
is asymmetric; moreover the scale bottom NONE is upgraded by every other
value of its scale. -/
theorem claim3_upgrade_is_scale_order :
    (∀ x y : Risk, inSameScale x y →
      ((should_upgrade_risk x y = true ↔
          (x ∈ severeScale ∧ y ∈ severeScale ∧
            severeScale.indexOf x < severeScale.indexOf y) ∨
          (x ∈ rainfallScale ∧ y ∈ rainfallScale ∧
            rainfallScale.indexOf x < rainfallScale.indexOf y)) ∧
       ¬(should_upgrade_risk x y = true ∧ should_upgrade_risk y x = true))) ∧
    (∀ x y : Risk, inSameScale x y →
      (x = .spc .NONE ∨ x = .ero .NONE) → y ≠ x → should_upgrade_risk x y = true) :=
  ⟨by decide, by decide⟩

/-- C3 witness: the scale hypotheses discharged at a concrete pair. -/
theorem claim3_witness :
    should_upgrade_risk (.spc .NONE) (.spc .SLGT) = true :=
  claim3_upgrade_is_scale_order.2 (.spc .NONE) (.spc .SLGT) (by decide)
    (Or.inl rfl) (by decide)

/-! ## Lemmas: dict operations -/

lemma dictGet_nil {α : Type} (c : String) : dictGet ([] : List (String × α)) c = none := rfl

lemma dictGet_cons {α : Type} (k : String) (v : α) (t : List (String × α)) (c : String) :
    dictGet ((k, v) :: t) c = if k = c then some v else dictGet t c := by
  by_cases h : k = c
  · simp [dictGet, List.find?, h]
  · have hb : (k == c) = false := by simpa using h
    simp [dictGet, List.find?, hb, h]

lemma dictGet_eq_none_of_not_mem {α : Type} (d : List (String × α)) (c : String)
    (h : c ∉ d.map Prod.fst) : dictGet d c = none := by
  induction d with
  | nil => rfl
  | cons p t ih =>
    simp only [List.map_cons, List.mem_cons] at h
    push_neg at h
    rcases p with ⟨k, v⟩
    rw [dictGet_cons, if_neg (fun hk => h.1 hk.symm)]
    exact ih h.2

lemma any_key_iff_mem {α : Type} (d : List (String × α)) (k : String) :
    (d.any (fun p => p.1 == k)) = true ↔ k ∈ d.map Prod.fst := by
  simp [List.any_eq_true, List.mem_map, beq_iff_eq]

lemma dictGet_mapSet {α : Type} (d : List (String × α)) (k c : String) (v : α) :
    dictGet (d.map (fun p => if p.1 == k then (k, v) else p)) c =
      if c = k then (if k ∈ d.map Prod.fst then some v else none) else dictGet d c := by
  induction d with
  | nil => simp [dictGet_nil]
  | cons p t ih =>
    rcases p with ⟨k0, v0⟩
    simp only [beq_iff_eq] at ih ⊢
    by_cases hk0 : k0 = k
    · subst hk0
      by_cases hc : k0 = c
      · subst hc
        simp [dictGet_cons, ih]
      · have hc2 : ¬ c = k0 := fun h => hc h.symm
        simp [dictGet_cons, ih, hc, hc2]
    · have hk02 : ¬ k = k0 := fun h => hk0 h.symm
      by_cases hc : k0 = c
      · subst hc
        simp [dictGet_cons, ih, hk0, hk02]
      · have hmemiff : (k ∈ k0 :: List.map Prod.fst t) ↔ k ∈ List.map Prod.fst t := by
          simp [hk02]
        simp only [dictGet_cons, List.map_cons, if_neg hk0, if_neg hc, ih]
        exact if_congr Iff.rfl (if_congr hmemiff.symm rfl rfl) rfl

lemma dictGet_append_single {α : Type} (d : List (String × α)) (k c : String) (v : α)
    (hk : k ∉ d.map Prod.fst) :
    dictGet (d ++ [(k, v)]) c = if c = k then some v else dictGet d c := by
  induction d with
  | nil =>
    rw [List.nil_append, dictGet_cons, dictGet_nil]
    by_cases hc : c = k
    · rw [if_pos hc, if_pos hc.symm]
    · rw [if_neg hc, if_neg (fun h => hc h.symm)]
  | cons p t ih =>
    rcases p with ⟨k0, v0⟩
    simp only [List.map_cons, List.mem_cons] at hk
    push_neg at hk
    rw [List.cons_append, dictGet_cons, dictGet_cons, ih hk.2]
    by_cases hc : k0 = c
    · subst hc
      rw [if_pos rfl, if_pos rfl, if_neg (fun h => hk.1 h.symm)]
    · rw [if_neg hc, if_neg hc]

lemma dictGet_dictSet {α : Type} (d : List (String × α)) (k c : String) (v : α) :
    dictGet (dictSet d k v) c = if c = k then some v else dictGet d c := by
  unfold dictSet
  by_cases hmem : (d.any (fun p => p.1 == k)) = true
  · rw [if_pos hmem, dictGet_mapSet, if_congr (Iff.rfl)
      (if_pos ((any_key_iff_mem d k).mp hmem)) rfl]
  · rw [if_neg hmem, dictGet_append_single]
    exact fun h => hmem ((any_key_iff_mem d k).mpr h)

lemma keys_dictSet {α : Type} (d : List (String × α)) (k : String) (v : α) :
    (dictSet d k v).map Prod.fst =
      if k ∈ d.map Prod.fst then d.map Prod.fst else d.map Prod.fst ++ [k] := by
  unfold dictSet
  by_cases hmem : (d.any (fun p => p.1 == k)) = true
  · rw [if_pos hmem, if_pos ((any_key_iff_mem d k).mp hmem), List.map_map]
    apply List.map_congr_left
    intro p _
    by_cases hp : p.1 = k
    · simp [Function.comp, hp]
    · simp [Function.comp, hp]
  · rw [if_neg hmem,
      if_neg (fun h => hmem ((any_key_iff_mem d k).mpr h)), List.map_append]
    rfl

lemma nodup_keys_dictSet {α : Type} (d : List (String × α)) (k : String) (v : α)
    (h : (d.map Prod.fst).Nodup) : ((dictSet d k v).map Prod.fst).Nodup := by
  rw [keys_dictSet]
  by_cases hmem : k ∈ d.map Prod.fst
  · rwa [if_pos hmem]
  · rw [if_neg hmem, List.nodup_append]
    refine ⟨h, List.nodup_singleton k, fun a ha hak => ?_⟩
    rw [List.mem_singleton] at hak
    rw [hak] at ha
    exact hmem ha

/-! ## Lemmas: the upgrade fold -/

/-- Folding one candidate risk into an optional slot, exactly as the
aggregation loop does (`current is None or should_upgrade_risk`). -/
def combineO (z : Option Risk) (r : Risk) : Option Risk :=
  match z with
  | none => some r
  | some cur => if should_upgrade_risk cur r then some r else some cur

/-- Folding an optional candidate into an optional slot. -/
def combineOO (z w : Option Risk) : Option Risk :=
  match w with
  | none => z
  | some r => combineO z r

lemma combineO_none (r : Risk) : combineO none r = some r := rfl

lemma combineO_some (cur r : Risk) :
    combineO (some cur) r = if should_upgrade_risk cur r then some r else some cur := rfl

lemma up_lt {a b : Risk} (h : should_upgrade_risk a b = true) :
    riskPriority a < riskPriority b := by
  simpa [should_upgrade_risk] using h

lemma up_not_lt {a b : Risk} (h : ¬ should_upgrade_risk a b = true) :
    ¬ riskPriority a < riskPriority b := by
  simpa [should_upgrade_risk] using h

lemma up_irrefl (r : Risk) : should_upgrade_risk r r = false := by
  simp [should_upgrade_risk]

lemma combineO_idem (z : Option Risk) (r : Risk) :
    combineO (combineO z r) r = combineO z r := by
  rcases z with _ | cur
  · rw [combineO_none, combineO_some, up_irrefl]
    simp
  · rw [combineO_some]
    by_cases h : should_upgrade_risk cur r = true
    · rw [if_pos h, combineO_some, up_irrefl]
      simp
    · rw [if_neg h, combineO_some, if_neg h]

/-- Pairwise tie-freedom: priorities are injective on the listed risks. -/
def TieInj (rs : List Risk) : Prop :=
  ∀ r ∈ rs, ∀ s ∈ rs, riskPriority r = riskPriority s → r = s

lemma tieInj_of_sublist {rs ss : List Risk} (h : ss ⊆ rs) (hinj : TieInj rs) : TieInj ss :=
  fun r hr s hs => hinj r (h hr) s (h hs)

lemma tieInj_cons {r : Risk} {t : List Risk} (h : TieInj (r :: t)) : TieInj t :=
  tieInj_of_sublist (List.subset_cons_self r t) h

lemma combineO_comm (z : Option Risk) (x y : Risk)
    (h : riskPriority x = riskPriority y → x = y) :
    combineO (combineO z x) y = combineO (combineO z y) x := by
  rcases z with _ | cur
  · rw [combineO_none, combineO_none, combineO_some, combineO_some]
    by_cases hxy : should_upgrade_risk x y = true
    · rw [if_pos hxy]
      by_cases hyx : should_upgrade_risk y x = true
      · exact absurd (up_lt hxy) (by have := up_lt hyx; omega)
      · rw [if_neg hyx]
    · rw [if_neg hxy]
      by_cases hyx : should_upgrade_risk y x = true
      · rw [if_pos hyx]
      · rw [if_neg hyx]
        exact congrArg some (h (by have h1 := up_not_lt hxy; have h2 := up_not_lt hyx; omega))
  · rw [combineO_some, combineO_some]
    by_cases h1 : should_upgrade_risk cur x = true
    · rw [if_pos h1]
      by_cases h2 : should_upgrade_risk cur y = true
      · rw [if_pos h2, combineO_some, combineO_some]
        by_cases hxy : should_upgrade_risk x y = true
        · rw [if_pos hxy]
          by_cases hyx : should_upgrade_risk y x = true
          · exact absurd (up_lt hxy) (by have := up_lt hyx; omega)
          · rw [if_neg hyx]
        · rw [if_neg hxy]
          by_cases hyx : should_upgrade_risk y x = true
          · rw [if_pos hyx]
          · rw [if_neg hyx]
            exact congrArg some (h (by have := up_not_lt hxy; have := up_not_lt hyx; omega))
      · rw [if_neg h2, combineO_some, combineO_some, if_pos h1]
        rw [if_neg (fun hxy => by
          have := up_lt h1
          have := up_lt hxy
          have := up_not_lt h2
          omega)]
    · rw [if_neg h1]
      by_cases h2 : should_upgrade_risk cur y = true
      · rw [if_pos h2, combineO_some, combineO_some, if_pos h2]
        rw [if_neg (fun hyx => by
          have := up_lt h2
          have := up_lt hyx
          have := up_not_lt h1
          omega)]
      · rw [if_neg h2, combineO_some, combineO_some, if_neg h1, if_neg h2]

lemma foldl_combineO_mem (rs : List Risk) (z : Option Risk) (b : Risk)
    (h : List.foldl combineO z rs = some b) : z = some b ∨ b ∈ rs := by
  induction rs generalizing z with
  | nil => exact Or.inl h
  | cons r t ih =>
    rw [List.foldl_cons] at h
    rcases ih (combineO z r) h with h1 | h1
    · rcases z with _ | cur
      · rw [combineO_none, Option.some_inj] at h1
        right
        rw [h1]
        exact List.mem_cons_self b t
      · rw [combineO_some] at h1
        split_ifs at h1 with hs
        · right
          rw [Option.some_inj] at h1
          rw [h1]
          exact List.mem_cons_self b t
        · left
          exact h1
    · exact Or.inr (List.mem_cons_of_mem r h1)

lemma combineO_assoc (z : Option Risk) (r b : Risk) :
    combineO (combineO z r) b = combineOO z (combineO (some r) b) := by
  rcases z with _ | cur
  · rcases hm : combineO (some r) b with _ | m
    · rw [combineO_some] at hm
      split_ifs at hm
    · rw [combineO_none, hm]
      rfl
  · by_cases hrb : should_upgrade_risk r b = true
    · have hR : combineOO (some cur) (combineO (some r) b) = combineO (some cur) b := by
        rw [combineO_some, if_pos hrb]
        rfl
      rw [hR]
      by_cases h1 : should_upgrade_risk cur r = true
      · rw [combineO_some, if_pos h1, combineO_some, combineO_some]
        by_cases h2 : should_upgrade_risk cur b = true
        · rw [if_pos h2, if_pos hrb]
        · exact absurd
            (by have := up_lt h1; have := up_lt hrb; omega :
              riskPriority cur < riskPriority b)
            (up_not_lt h2)
      · rw [combineO_some, if_neg h1]
    · have hR : combineOO (some cur) (combineO (some r) b) = combineO (some cur) r := by
        rw [combineO_some, if_neg hrb]
        rfl
      rw [hR]
      by_cases h1 : should_upgrade_risk cur r = true
      · rw [combineO_some, if_pos h1, combineO_some]
        rw [if_neg (fun hx => (up_not_lt hrb) (up_lt hx))]
      · rw [combineO_some, if_neg h1, combineO_some]
        rw [if_neg (fun h2 => absurd (up_lt h2)
          (by have := up_not_lt hrb; have := up_not_lt h1; omega))]

lemma foldl_combineO_from (rs : List Risk) (z : Option Risk) :
    List.foldl combineO z rs = combineOO z (List.foldl combineO none rs) := by
  induction rs generalizing z with
  | nil => rcases z with _ | cur <;> rfl
  | cons r t ih =>
    simp only [List.foldl_cons]
    rw [ih (combineO z r), ih (combineO none r), combineO_none]
    cases hw : List.foldl combineO none t with
    | none => rcases z with _ | cur <;> rfl
    | some b => exact combineO_assoc z r b

/-! ## Lemmas: county risk aggregation -/

lemma dictGet_updateCounty (d : List (String × Risk)) (county c : String) (r : Risk) :
    dictGet (updateCounty d county r) c =
      if c = county then combineO (dictGet d county) r else dictGet d c := by
  unfold updateCounty
  cases hd : dictGet d county with
  | none =>
    rw [dictGet_dictSet]
    by_cases hc : c = county
    · rw [if_pos hc, if_pos hc, combineO_none]
    · rw [if_neg hc, if_neg hc]
  | some cur =>
    dsimp only
    rw [combineO_some]
    by_cases hs : should_upgrade_risk cur r = true
    · rw [if_pos hs, if_pos hs, dictGet_dictSet]
    · rw [if_neg hs, if_neg hs]
      by_cases hc : c = county
      · rw [if_pos hc, hc, hd]
      · rw [if_neg hc]

lemma nodup_keys_updateCounty (d : List (String × Risk)) (county : String) (r : Risk)
    (h : (d.map Prod.fst).Nodup) : ((updateCounty d county r).map Prod.fst).Nodup := by
  unfold updateCounty
  cases dictGet d county with
  | none => exact nodup_keys_dictSet d county r h
  | some cur =>
    dsimp only
    by_cases hs : should_upgrade_risk cur r = true
    · rw [if_pos hs]
      exact nodup_keys_dictSet d county r h
    · rwa [if_neg hs]

lemma dictGet_hits_fold (hits : List String) (d : List (String × Risk)) (r : Risk)
    (c : String) :
    dictGet (hits.foldl (fun d county => updateCounty d county r) d) c =
      if c ∈ hits then combineO (dictGet d c) r else dictGet d c := by
  induction hits generalizing d with
  | nil => simp
  | cons h t ih =>
    rw [List.foldl_cons, ih]
    by_cases hch : c = h
    · subst hch
      by_cases hct : c ∈ t
      · rw [if_pos hct, if_pos (List.mem_cons_self c t), dictGet_updateCounty,
          if_pos rfl, combineO_idem]
      · rw [if_neg hct, if_pos (List.mem_cons_self c t), dictGet_updateCounty, if_pos rfl]
    · rw [dictGet_updateCounty, if_neg hch]
      by_cases hct : c ∈ t
      · rw [if_pos hct, if_pos (List.mem_cons_of_mem h hct)]
      · rw [if_neg hct, if_neg (by simp [hch, hct])]

lemma nodup_keys_hits_fold (hits : List String) (d : List (String × Risk)) (r : Risk)
    (h : (d.map Prod.fst).Nodup) :
    ((hits.foldl (fun d county => updateCounty d county r) d).map Prod.fst).Nodup := by
  induction hits generalizing d with
  | nil => exact h
  | cons x t ih =>
    rw [List.foldl_cons]
    exact ih _ (nodup_keys_updateCounty d x r h)

/-- The candidate risks that a polygon list contributes to one county:
each polygon with a risk tag, nonempty rings, and a resolution covering
the county contributes its effective risk, in list order. -/
def coveringRisks (resolve : List PolyRing → List String) (c : String)
    (l : List OutlookPoly) : List Risk :=
  l.filterMap (fun p =>
    match effRisk p with
    | none => none
    | some r => if p.rings.isEmpty then none else if c ∈ resolve p.rings then some r else none)

lemma gcio_foldl_lookup (resolve : List PolyRing → List String) (l : List OutlookPoly)
    (d : List (String × Risk)) (c : String) :
    dictGet (l.foldl
      (fun county_risks p =>
        match effRisk p with
        | none => county_risks
        | some r =>
          if p.rings.isEmpty then county_risks
          else (resolve p.rings).foldl (fun d county => updateCounty d county r) county_risks)
      d) c
    = List.foldl combineO (dictGet d c) (coveringRisks resolve c l) := by
  induction l generalizing d with
  | nil => rfl
  | cons p t ih =>
    rw [List.foldl_cons, ih]
    unfold coveringRisks
    cases he : effRisk p with
    | none =>
      rw [List.filterMap_cons, he]
    | some r =>
      rw [List.filterMap_cons, he]
      dsimp only
      by_cases hr : p.rings.isEmpty
      · rw [if_pos hr, if_pos hr]
      · rw [if_neg hr, if_neg hr]
        by_cases hc : c ∈ resolve p.rings
        · rw [if_pos hc, List.foldl_cons, dictGet_hits_fold, if_pos hc]
        · rw [if_neg hc, dictGet_hits_fold, if_neg hc]

lemma gcio_lookup (resolve : List PolyRing → List String) (l : List OutlookPoly)
    (c : String) :
    dictGet (get_counties_in_outlook resolve l) c
      = List.foldl combineO none (coveringRisks resolve c l) := by
  unfold get_counties_in_outlook
  rw [gcio_foldl_lookup]
  rfl

lemma nodup_keys_gcio (resolve : List PolyRing → List String) (l : List OutlookPoly) :
    ((get_counties_in_outlook resolve l).map Prod.fst).Nodup := by
  unfold get_counties_in_outlook
  have : ∀ d : List (String × Risk), (d.map Prod.fst).Nodup →
      ((l.foldl (fun county_risks p =>
        match effRisk p with
        | none => county_risks
        | some r =>
          if p.rings.isEmpty then county_risks
          else (resolve p.rings).foldl (fun d county => updateCounty d county r) county_risks)
        d).map Prod.fst).Nodup := by
    induction l with
    | nil => exact fun d h => h
    | cons p t ih =>
      intro d h
      rw [List.foldl_cons]
      apply ih
      cases effRisk p with
      | none => exact h
      | some r =>
        dsimp only
        by_cases hr : p.rings.isEmpty
        · rwa [if_pos hr]
        · rw [if_neg hr]
          exact nodup_keys_hits_fold _ d r h
  exact this [] (by simp)

/-! ## Same-scale hypotheses and permutation invariance -/

/-- All effective risk tags of the polygon list come from one scale. -/
def SameScaleOutlooks (l : List OutlookPoly) : Prop :=
  (∀ p ∈ l, ∀ r : Risk, effRisk p = some r → r ∈ severeScale) ∨
  (∀ p ∈ l, ∀ r : Risk, effRisk p = some r → r ∈ rainfallScale)

instance (l : List OutlookPoly) : Decidable (SameScaleOutlooks l) := by
  unfold SameScaleOutlooks
  infer_instance

lemma tieInj_severe : ∀ r ∈ severeScale, ∀ s ∈ severeScale,
    riskPriority r = riskPriority s → r = s := by decide

lemma tieInj_rainfall : ∀ r ∈ rainfallScale, ∀ s ∈ rainfallScale,
    riskPriority r = riskPriority s → r = s := by decide

lemma coveringRisks_mem {resolve : List PolyRing → List String} {c : String}
    {l : List OutlookPoly} {r : Risk} (h : r ∈ coveringRisks resolve c l) :
    ∃ p ∈ l, effRisk p = some r := by
  unfold coveringRisks at h
  rcases List.mem_filterMap.mp h with ⟨p, hp, hf⟩
  refine ⟨p, hp, ?_⟩
  cases he : effRisk p with
  | none => rw [he] at hf; exact absurd hf (by simp)
  | some r0 =>
    rw [he] at hf
    dsimp only at hf
    split_ifs at hf
    rw [Option.some_inj] at hf
    rw [hf]

lemma tieInj_coveringRisks (resolve : List PolyRing → List String) (c : String)
    (l : List OutlookPoly) (hscale : SameScaleOutlooks l) :
    TieInj (coveringRisks resolve c l) := by
  intro r hr s hs
  rcases coveringRisks_mem hr with ⟨p, hp, hpr⟩
  rcases coveringRisks_mem hs with ⟨q, hq, hqs⟩
  rcases hscale with hsc | hsc
  · exact tieInj_severe r (hsc p hp r hpr) s (hsc q hq s hqs)
  · exact tieInj_rainfall r (hsc p hp r hpr) s (hsc q hq s hqs)

lemma sameScale_of_perm {l l' : List OutlookPoly} (hp : l'.Perm l)
    (h : SameScaleOutlooks l) : SameScaleOutlooks l' := by
  rcases h with h | h
  · exact Or.inl (fun p hmem => h p (hp.mem_iff.mp hmem))
  · exact Or.inr (fun p hmem => h p (hp.mem_iff.mp hmem))

lemma foldl_combineO_perm {rs rs' : List Risk} (hperm : rs.Perm rs')
    (hinj : TieInj rs) :
    List.foldl combineO none rs = List.foldl combineO none rs' :=
  hperm.foldl_eq'
    (fun x hx y hy z => combineO_comm z x y (hinj x hx y hy)) none

lemma coveringRisks_perm (resolve : List PolyRing → List String) (c : String)
    {l l' : List OutlookPoly} (hp : l.Perm l') :
    (coveringRisks resolve c l).Perm (coveringRisks resolve c l') :=
  hp.filterMap _

lemma coveringRisks_append (resolve : List PolyRing → List String) (c : String)
    (l₁ l₂ : List OutlookPoly) :
    coveringRisks resolve c (l₁ ++ l₂)
      = coveringRisks resolve c l₁ ++ coveringRisks resolve c l₂ := by
  unfold coveringRisks
  rw [List.filterMap_append]

/-! ## The pairwise merge of per-county maps -/

/-- Modelled from the spec: the pairwise merge of two per-county risk maps
with the upgrade rule (section 4.2 describes aggregation "partitioned
across parallel workers and merged pairwise with `upgrade`"; the repository
itself only folds polygons sequentially, so the merge operator is this
specification-side definition, reusing the per-county update of the code). -/
def mergeRiskMaps (d₁ d₂ : List (String × Risk)) : List (String × Risk) :=
  d₂.foldl (fun d kv => updateCounty d kv.1 kv.2) d₁

lemma dictGet_mergeRiskMaps (d₁ d₂ : List (String × Risk))
    (hnd : (d₂.map Prod.fst).Nodup) (c : String) :
    dictGet (mergeRiskMaps d₁ d₂) c = combineOO (dictGet d₁ c) (dictGet d₂ c) := by
  unfold mergeRiskMaps
  induction d₂ generalizing d₁ with
  | nil => rfl
  | cons kv t ih =>
    rcases kv with ⟨k, v⟩
    simp only [List.map_cons, List.nodup_cons] at hnd
    rw [List.foldl_cons, ih _ hnd.2, dictGet_updateCounty, dictGet_cons]
    by_cases hc : c = k
    · subst hc
      rw [if_pos rfl, if_pos rfl, dictGet_eq_none_of_not_mem t c hnd.1]
      rfl
    · rw [if_neg hc, if_neg (fun h => hc h.symm)]

lemma dictGet_mergeFold (resolve : List PolyRing → List String)
    (parts : List (List OutlookPoly)) (acc : List (String × Risk)) (c : String) :
    dictGet ((parts.map (get_counties_in_outlook resolve)).foldl mergeRiskMaps acc) c
      = List.foldl combineO (dictGet acc c) (coveringRisks resolve c parts.flatten) := by
  induction parts generalizing acc with
  | nil => rfl
  | cons part rest ih =>
    rw [List.map_cons, List.foldl_cons, ih,
      dictGet_mergeRiskMaps _ _ (nodup_keys_gcio resolve part), gcio_lookup,
      ← foldl_combineO_from (coveringRisks resolve c part) (dictGet acc c),
      show (part :: rest).flatten = part ++ rest.flatten from rfl,
      coveringRisks_append, List.foldl_append]

/-! ## C1: order independence and partition confluence -/

/-- C1: for polygons tagged from one scale, the per-county risk map of
`get_counties_in_outlook` is unchanged by any permutation of the polygon
list, and any partition of it into sublists aggregated separately and
merged pairwise with the upgrade rule yields the identical map (dicts
compared as Python compares them: key sets and values). -/
theorem claim1_aggregation_confluent
    (resolve : List PolyRing → List String)
    (l l' : List OutlookPoly) (parts : List (List OutlookPoly))
    (hscale : SameScaleOutlooks l)
    (hperm : l'.Perm l) (hparts : parts.flatten.Perm l) :
    dictEquiv (get_counties_in_outlook resolve l') (get_counties_in_outlook resolve l) ∧
    dictEquiv ((parts.map (get_counties_in_outlook resolve)).foldl mergeRiskMaps [])
      (get_counties_in_outlook resolve l) := by
  constructor
  · intro c
    rw [gcio_lookup, gcio_lookup]
    exact foldl_combineO_perm (coveringRisks_perm resolve c hperm)
      (tieInj_coveringRisks resolve c l' (sameScale_of_perm hperm hscale))
  · intro c
    rw [dictGet_mergeFold, gcio_lookup, dictGet_nil]
    exact foldl_combineO_perm (coveringRisks_perm resolve c hparts)
      (tieInj_coveringRisks resolve c parts.flatten (sameScale_of_perm hparts hscale))

/-- A constant resolver used to instantiate the aggregation theorems. -/
def wResolve : List PolyRing → List String := fun _ => ["Hinds"]

/-- A marginal-risk polygon with one degenerate ring. -/
def wPolyA : OutlookPoly := ⟨[[]], some (.spc .MRGL), none⟩

/-- A slight-risk polygon with one degenerate ring. -/
def wPolyB : OutlookPoly := ⟨[[]], some (.spc .SLGT), none⟩

/-- C1 witness: the scale, permutation and partition hypotheses
discharged on a concrete two-polygon list. -/
theorem claim1_witness :
    dictGet (get_counties_in_outlook wResolve [wPolyB, wPolyA]) "Hinds"
      = dictGet (get_counties_in_outlook wResolve [wPolyA, wPolyB]) "Hinds" :=
  (claim1_aggregation_confluent wResolve [wPolyA, wPolyB] [wPolyB, wPolyA]
    [[wPolyB], [wPolyA]] (by decide) (by decide) (by decide)).1 "Hinds"

/-! ## C4: a single polygon assigns its risk to exactly the resolved counties -/

/-- C4: aggregating the one-element list `[P]` assigns the risk tag of `P`
to exactly the counties the resolver reports for its rings; every other
county is absent from the map (absence reads back as the bottom NONE). -/
theorem claim4_single_polygon
    (resolve : List PolyRing → List String) (P : OutlookPoly) (r : Risk)
    (hrings : P.rings ≠ []) (hrisk : effRisk P = some r) :
    (∀ c ∈ resolve P.rings, dictGet (get_counties_in_outlook resolve [P]) c = some r) ∧
    (∀ c, c ∉ resolve P.rings → dictGet (get_counties_in_outlook resolve [P]) c = none) := by
  have hempty : P.rings.isEmpty = false := by
    cases hp : P.rings with
    | nil => exact absurd hp hrings
    | cons a t => rfl
  constructor
  · intro c hc
    rw [gcio_lookup]
    unfold coveringRisks
    simp [List.filterMap_cons, hrisk, hempty, hrings, hc, combineO_none]
  · intro c hc
    rw [gcio_lookup]
    unfold coveringRisks
    simp [List.filterMap_cons, hrisk, hempty, hrings, hc]

/-- C4 witness: the hypotheses discharged on a concrete polygon. -/
theorem claim4_witness :
    dictGet (get_counties_in_outlook wResolve [wPolyB]) "Hinds" = some (.spc .SLGT) :=
  (claim4_single_polygon wResolve wPolyB (.spc .SLGT) (by decide) (by decide)).1
    "Hinds" (by decide)

/-! ## C5: region rollup -/

/-- The region a county is attributed to by
`get_highest_risk_by_region` (`county_to_region.get(county, "Unknown")`). -/
def regionOfCounty (counties : List County) (county : String) : String :=
  (dictGet (countyToRegion counties) county).getD "Unknown"

/-- The risks of the counties attributed to one region, in map order. -/
def memberRisks (county_risks : List (String × Risk)) (counties : List County)
    (region : String) : List Risk :=
  (county_risks.filter (fun kv => regionOfCounty counties kv.1 == region)).map Prod.snd

lemma hrbr_eq (county_risks : List (String × Risk)) (counties : List County) :
    get_highest_risk_by_region county_risks counties
      = county_risks.foldl
          (fun d kv => updateCounty d (regionOfCounty counties kv.1) kv.2) [] := rfl

lemma hrbr_aux (county_risks : List (String × Risk)) (counties : List County)
    (d : List (String × Risk)) (region : String) :
    dictGet (county_risks.foldl
      (fun d kv => updateCounty d (regionOfCounty counties kv.1) kv.2) d) region
      = List.foldl combineO (dictGet d region)
          (memberRisks county_risks counties region) := by
  induction county_risks generalizing d with
  | nil => rfl
  | cons kv t ih =>
    rw [List.foldl_cons, ih]
    unfold memberRisks
    rw [List.filter_cons]
    by_cases hr : (regionOfCounty counties kv.1 == region) = true
    · have he : regionOfCounty counties kv.1 = region := by simpa using hr
      rw [if_pos hr, List.map_cons, List.foldl_cons, dictGet_updateCounty, he, if_pos rfl]
    · have he : ¬ region = regionOfCounty counties kv.1 := by
        intro h
        exact hr (by simp [h])
      rw [if_neg hr, dictGet_updateCounty, if_neg he]

lemma up_false_of_le {a b : Risk} (h : riskPriority b ≤ riskPriority a) :
    should_upgrade_risk a b = false := by
  simp only [should_upgrade_risk, gt_iff_lt, decide_eq_false_iff_not, not_lt]
  exact h

lemma combineO_some_val (z : Option Risk) (r : Risk) :
    ∃ m, combineO z r = some m ∧ riskPriority r ≤ riskPriority m ∧
      (∀ a, z = some a → riskPriority a ≤ riskPriority m) := by
  rcases z with _ | cur
  · exact ⟨r, rfl, le_refl _, by simp⟩
  · by_cases h : should_upgrade_risk cur r = true
    · refine ⟨r, by rw [combineO_some, if_pos h], le_refl _, ?_⟩
      intro a ha
      rw [Option.some_inj] at ha
      rw [← ha]
      exact le_of_lt (up_lt h)
    · refine ⟨cur, by rw [combineO_some, if_neg h], ?_, ?_⟩
      · have := up_not_lt h
        omega
      · intro a ha
        rw [Option.some_inj] at ha
        rw [← ha]

lemma foldl_combineO_ub (rs : List Risk) (z : Option Risk) (v : Risk)
    (h : List.foldl combineO z rs = some v) :
    (∀ r ∈ rs, should_upgrade_risk v r = false) ∧
    (∀ a, z = some a → should_upgrade_risk v a = false) := by
  induction rs generalizing z with
  | nil =>
    refine ⟨fun r hr => absurd hr (List.not_mem_nil r), fun a ha => ?_⟩
    rw [ha] at h
    simp only [List.foldl_nil] at h
    rw [Option.some_inj] at h
    rw [← h]
    exact up_irrefl a
  | cons r t ih =>
    rw [List.foldl_cons] at h
    have hrec := ih (combineO z r) h
    rcases combineO_some_val z r with ⟨m, hm, hrm, hzm⟩
    have hvm : should_upgrade_risk v m = false := hrec.2 m hm
    have hmv : riskPriority m ≤ riskPriority v := by
      have := up_false_of_le (a := v) (b := m)
      simp only [should_upgrade_risk, gt_iff_lt, decide_eq_false_iff_not, not_lt] at hvm
      exact hvm
    constructor
    · intro s hs
      rcases List.mem_cons.mp hs with h1 | h1
      · rw [h1]
        exact up_false_of_le (le_trans hrm hmv)
      · exact hrec.1 s h1
    · intro a ha
      exact up_false_of_le (le_trans (hzm a ha) hmv)

/-- C5: each region of the rollup map carries the fold of its member
county risks under the upgrade rule; the value, when present, is one of
the member risks and no member risk upgrades it (it is a maximum in the
upgrade order); a region with no mapped member county is absent, reading
back as the bottom NONE; and on the spec example the Central region gets
SLGT.  The hypothesis rules out configurations on which the Python
comprehension would raise `KeyError` (a named county without a region). -/
theorem claim5_region_rollup
    (county_risks : List (String × Risk)) (counties : List County) (region : String)
    (_hreg : ∀ c ∈ counties, pyTruthyStr c.name = true → c.region ≠ none) :
    (dictGet (get_highest_risk_by_region county_risks counties) region
       = List.foldl combineO none (memberRisks county_risks counties region)) ∧
    (∀ v, dictGet (get_highest_risk_by_region county_risks counties) region = some v →
       v ∈ memberRisks county_risks counties region ∧
       ∀ r ∈ memberRisks county_risks counties region, should_upgrade_risk v r = false) ∧
    (memberRisks county_risks counties region = [] →
       dictGet (get_highest_risk_by_region county_risks counties) region = none) ∧
    dictGet (get_highest_risk_by_region
        [("Hinds", .spc .SLGT), ("Rankin", .spc .MRGL)]
        [⟨some "Hinds", some "Central", none, none⟩,
         ⟨some "Rankin", some "Central", none, none⟩]) "Central" = some (.spc .SLGT) := by
  have hchar : dictGet (get_highest_risk_by_region county_risks counties) region
      = List.foldl combineO none (memberRisks county_risks counties region) := by
    rw [hrbr_eq, hrbr_aux]
    rfl
  refine ⟨hchar, ?_, ?_, ?_⟩
  · intro v hv
    rw [hchar] at hv
    constructor
    · rcases foldl_combineO_mem _ none v hv with h1 | h1
      · exact absurd h1 (by simp)
      · exact h1
    · exact (foldl_combineO_ub _ none v hv).1
  · intro hm
    rw [hchar, hm]
    rfl
  · decide

/-- C5 witness: the configuration hypothesis discharged concretely. -/
theorem claim5_witness :
    dictGet (get_highest_risk_by_region
        [("Hinds", .spc .SLGT), ("Rankin", .spc .MRGL)]
        [⟨some "Hinds", some "Central", none, none⟩,
         ⟨some "Rankin", some "Central", none, none⟩]) "Central" = some (.spc .SLGT) :=
  (claim5_region_rollup [] [] "Central" (by decide)).2.2.2

/-! ## analyze.py and models.py: forecast periods and daily extraction -/

/-- One raw NWS forecast period as read by `extract_daily_forecasts`
(every field is read with `.get`; the nested
`probabilityOfPrecipitation.value` collapses to an optional int). -/
structure Period where
  name : String
  isDaytime : Bool
  temperature : Option Int
  shortForecast : Option String
  detailedForecast : Option String
  windSpeed : Option String
  windDirection : Option String
  pop : Option Int
deriving DecidableEq, Repr

/-- `models.DayForecast`. -/
structure DayForecast where
  day_name : String
  date : Option String := none
  high_temp : Option Int := none
  low_temp : Option Int := none
  conditions : Option String := none
  detailed : Option String := none
  pop : Option Int := none
  wind_speed : Option String := none
  wind_direction : Option String := none
deriving DecidableEq, Repr

/-- Lines 66 to 86 of `analyze.py`: the entry built from the current
period before the lookahead. -/
def mkDayForecast (p : Period) : DayForecast where
  day_name := pyReplace (pyReplace p.name " Night" "") "Tonight" "Today"
  high_temp := if p.isDaytime then p.temperature else none
  low_temp := if p.isDaytime then none else p.temperature
  conditions := p.shortForecast
  detailed := p.detailedForecast
  pop := p.pop
  wind_speed := p.windSpeed
  wind_direction := p.windDirection

/-- Lines 94 to 103: merge the following night period into a daytime
entry.  The night value is taken only when truthy (`next_pop["value"]`
under plain truthiness, so a present zero is skipped) and larger than the
stored one (or the stored one is absent). -/
def mergeNightPeriod (d : DayForecast) (q : Period) : DayForecast :=
  let d := { d with low_temp := q.temperature }
  match q.pop with
  | none => d
  | some v =>
    if v = 0 then d
    else
      match d.pop with
      | none => { d with pop := some v }
      | some dv => if v > dv then { d with pop := some v } else d

/-- Lines 104 to 108: merge the following day period into a nighttime
entry. -/
def mergeDayPeriod (d : DayForecast) (q : Period) : DayForecast :=
  { d with high_temp := q.temperature, conditions := q.shortForecast }

/-- The while loop of `extract_daily_forecasts`; the counter mirrors
`len(daily_forecasts)` against the cap of 7. -/
def extractGo : Nat → List Period → List DayForecast
  | _, [] => []
  | k, p :: rest =>
    if 7 ≤ k then []
    else
      let d := mkDayForecast p
      match rest with
      | [] => [d]
      | q :: rest2 =>
        if p.isDaytime && (pyIn "Night" q.name || q.name == "Tonight") then
          mergeNightPeriod d q :: extractGo (k + 1) rest2
        else if !p.isDaytime && !(pyIn "Night" q.name) then
          mergeDayPeriod d q :: extractGo (k + 1) rest2
        else
          d :: extractGo (k + 1) (q :: rest2)

/-- `analyze.extract_daily_forecasts`. -/
def extract_daily_forecasts (periods : List Period) : List DayForecast :=
  extractGo 0 periods

/-! ## models.py: the remaining records (only the fields the embedded
analysis code reads; network identifiers and timestamps it never touches
are omitted) -/

/-- `models.Alert` (fields read by the analysis code). -/
structure Alert where
  event : String
  affected_counties : List String
deriving DecidableEq, Repr

/-- `models.GridForecast` (fields read by the analysis code). -/
structure GridForecast where
  location_name : String
  region : String
  temperature_high : Option Int := none
  temperature_low : Option Int := none
  pop : Option Int := none
  qpf : Option ℚ := none
  snow_amount : Option ℚ := none
  wind_speed : Option String := none
  wind_direction : Option String := none
  conditions : Option String := none
  periods : List Period := []
deriving DecidableEq, Repr

/-- `models.SPCOutlook`. -/
structure SPCOutlook where
  day : Int
  valid_time : Option String := none
  issue_time : Option String := none
  outlook_type : String := "categorical"
  county_risks : List (String × Risk) := []
  polygons : List OutlookPoly := []
deriving DecidableEq, Repr

/-- `models.EROOutlook`. -/
structure EROOutlook where
  day : Int
  valid_time : Option String := none
  issue_time : Option String := none
  county_risks : List (String × Risk) := []
  polygons : List OutlookPoly := []
deriving DecidableEq, Repr

/-- `models.TropicalSystem` (fields read by the analysis code). -/
structure TropicalSystem where
  name : String
  classification : String
  ms_impacts : Option String := none
deriving DecidableEq, Repr

/-- `models.RegionalSummary`. -/
structure RegionalSummary where
  region : String
  anchor_city : String
  current_temp : Option Int := none
  current_conditions : Option String := none
  current_wind : Option String := none
  high_temp : Option Int := none
  low_temp : Option Int := none
  pop : Option Int := none
  expected_rainfall : Option ℚ := none
  daily_forecasts : List DayForecast := []
  spc_risk_day1 : SPCRisk := .NONE
  spc_risk_day2 : SPCRisk := .NONE
  ero_risk_day1 : EROCategory := .NONE
  conditions_summary : Option String := none
  alerts : List Alert := []
deriving DecidableEq, Repr

/-- `models.WeatherBriefing` (the generation timestamp is kept as the
preformatted date string the code derives from it). -/
structure WeatherBriefing where
  valid_date : String
  time_of_day : String
  alerts : List Alert
  alerts_by_type : List (String × List Alert)
  spc_outlooks : List SPCOutlook
  severe_summary : Option String
  ero_outlooks : List EROOutlook
  rainfall_summary : Option String
  tropical_systems : List TropicalSystem
  tropical_summary : Option String
  winter_summary : Option String
  regional_summaries : List RegionalSummary
  statewide_overview : String
  data_gaps : List String
  sources_used : List String
deriving DecidableEq, Repr

/-! ## fetch helpers used by the assembler -/

/-- `fetch_nws.group_alerts_by_type`. -/
def group_alerts_by_type (alerts : List Alert) : List (String × List Alert) :=
  alerts.foldl (fun grouped alert => dictListAppend grouped alert.event alert) []

/-- The SPC priority lookup of `fetch_spc.get_max_risk_from_outlooks`:
its dict holds only SPC keys, anything else defaults to 0. -/
def spcOnlyPriority : Risk → Nat
  | .spc s => spcPriority s
  | .ero _ => 0

/-- `fetch_spc.get_max_risk_from_outlooks`. -/
def get_max_risk_from_outlooks (outlooks : List SPCOutlook) (day : Int) : Risk :=
  outlooks.foldl
    (fun max_risk o =>
      if o.day == day then
        o.polygons.foldl
          (fun max_risk p =>
            let risk := p.risk.getD (.spc .NONE)
            if spcOnlyPriority risk > spcOnlyPriority max_risk then risk else max_risk)
          max_risk
      else max_risk)
    (.spc .NONE)

/-- The ERO priority lookup of `fetch_wpc.get_max_ero_from_outlooks`. -/
def eroOnlyPriority : Risk → Nat
  | .ero e => eroPriority e
  | .spc _ => 0

/-- `fetch_wpc.get_max_ero_from_outlooks`. -/
def get_max_ero_from_outlooks (outlooks : List EROOutlook) (day : Int) : Risk :=
  outlooks.foldl
    (fun max_category o =>
      if o.day == day then
        o.polygons.foldl
          (fun max_category p =>
            let category := p.category.getD (.ero .NONE)
            if eroOnlyPriority category > eroOnlyPriority max_category then category
            else max_category)
          max_category
      else max_category)
    (.ero .NONE)

/-! ## analyze.py: narrative builders -/

/-- The `risk_labels` dict of `build_severe_summary` (NONE maps to
`None`). -/
def spc_risk_labels : SPCRisk → Option String
  | .NONE => none
  | .TSTM => some "general thunderstorm risk"
  | .MRGL => some "marginal severe risk"
  | .SLGT => some "slight severe risk"
  | .ENH => some "enhanced severe risk"
  | .MDT => some "moderate severe risk"
  | .HIGH => some "HIGH severe risk"

/-- `list(risk_labels.keys())`: the SPC scale in label order. -/
def spcRiskOrder : List SPCRisk := [.NONE, .TSTM, .MRGL, .SLGT, .ENH, .MDT, .HIGH]

/-- The ERO order list used in `build_regional_summaries`. -/
def eroRiskOrder : List EROCategory := [.NONE, .MRGL, .SLGT, .MDT, .HIGH]

/-- `analyze.build_severe_summary`.  On a rainfall-typed value inside an
SPC county map Python would raise `ValueError` from `list.index`; that
value is skipped here, and no theorem depends on such inputs. -/
def build_severe_summary (spc_outlooks : List SPCOutlook)
    (counties_config : List County) : Option String :=
  let summaries := spc_outlooks.foldl
    (fun acc outlook =>
      if outlook.county_risks.isEmpty then acc
      else
        let max_risk := outlook.county_risks.foldl
          (fun m kv =>
            match kv.2 with
            | .spc r =>
              if r = .NONE then m
              else if spcRiskOrder.indexOf r > spcRiskOrder.indexOf m then r else m
            | .ero _ => m)
          SPCRisk.NONE
        if max_risk = .NONE then acc
        else acc ++ ["Day " ++ toString outlook.day ++ ": "
            ++ pyTitle ((spc_risk_labels max_risk).getD "severe risk")
            ++ " for portions of Mississippi"])
    []
  if ¬ summaries.isEmpty then some (String.intercalate " | " summaries)
  else
    let max_overall := get_max_risk_from_outlooks spc_outlooks 1
    if max_overall ≠ .spc .NONE then
      some ("Day 1: "
        ++ pyTitle ((match max_overall with
            | .spc s => spc_risk_labels s
            | .ero _ => none).getD "thunder")
        ++ " possible")
    else none

/-- The `ero_labels` dict of `build_rainfall_summary` (no NONE key). -/
def ero_labels : EROCategory → Option String
  | .MRGL => some "marginal excessive rainfall risk"
  | .SLGT => some "slight excessive rainfall risk"
  | .MDT => some "moderate excessive rainfall risk"
  | .HIGH => some "HIGH excessive rainfall risk"
  | .NONE => none

/-- Rendering of `f-string` `:.1f` on the nonnegative amounts the code
formats; float rounding is modelled as round half up. -/
def fmtQ1 (q : ℚ) : String :=
  let n : Int := Int.floor (q * 10 + 1 / 2)
  toString (n / 10) ++ "." ++ toString (n % 10)

/-- `analyze.build_rainfall_summary`. -/
def build_rainfall_summary (ero_outlooks : List EROOutlook)
    (forecasts : List GridForecast) : Option String :=
  let max_ero := get_max_ero_from_outlooks ero_outlooks 1
  let ero_text : Option String :=
    if max_ero ≠ .ero .NONE then
      match max_ero with
      | .ero e => ero_labels e
      | .spc _ => none
    else none
  let qp := forecasts.foldl
    (fun (acc : ℚ × Option String) f =>
      match f.qpf with
      | some q => if q ≠ 0 ∧ q > acc.1 then (q, some f.location_name) else acc
      | none => acc)
    (0, none)
  let parts : List String :=
    (if pyTruthyStr ero_text then [pyTitle (ero_text.getD "")] else []) ++
    (if qp.1 ≥ 1 then
      ["Up to " ++ fmtQ1 qp.1 ++ " inches possible near " ++ pyShowOptStr qp.2]
     else if qp.1 > 0 then
      ["Light rainfall amounts expected (up to " ++ fmtQ1 qp.1 ++ " inches)"]
     else [])
  if ¬ parts.isEmpty then some (String.intercalate ". " parts) else none

/-- `analyze.build_winter_summary`. -/
def build_winter_summary (forecasts : List GridForecast) : Option String :=
  let sn := forecasts.foldl
    (fun (acc : ℚ × Option String) f =>
      match f.snow_amount with
      | some s => if s ≠ 0 ∧ s > acc.1 then (s, some f.location_name) else acc
      | none => acc)
    (0, none)
  let tl := forecasts.foldl
    (fun (acc : Option Int × Option String) f =>
      match f.temperature_low with
      | some t =>
        match acc.1 with
        | none => (some t, some f.location_name)
        | some m => if t < m then (some t, some f.location_name) else acc
      | none => acc)
    (none, none)
  let parts : List String :=
    (if sn.1 ≥ 1 / 2 then
      ["Snow possible: up to " ++ fmtQ1 sn.1 ++ " inches near " ++ pyShowOptStr sn.2]
     else []) ++
    (match tl.1 with
     | some m =>
       if m ≤ 32 then
        ["Freezing temperatures expected (low of " ++ toString m ++ "°F near "
          ++ pyShowOptStr tl.2 ++ ")"]
       else []
     | none => [])
  if ¬ parts.isEmpty then some (String.intercalate ". " parts) else none

/-- `analyze.build_tropical_summary`. -/
def build_tropical_summary (systems : List TropicalSystem) : Option String :=
  if systems.isEmpty then none
  else
    let summaries := systems.map (fun s =>
      if pyTruthyStr s.ms_impacts then
        s.classification ++ " " ++ s.name ++ ": " ++ s.ms_impacts.getD ""
      else
        s.classification ++ " " ++ s.name ++ " being monitored")
    if ¬ summaries.isEmpty then some (String.intercalate " | " summaries) else none

/-- `sorted(set(a.event for a in alerts))`. -/
def sortedEventTypes (alerts : List Alert) : List String :=
  ((alerts.map (fun a => a.event)).eraseDups).mergeSort (fun a b => decide (a ≤ b))

/-- Python `min` on a list of ints (callers guard nonemptiness). -/
def listMinInt : List Int → Int
  | [] => 0
  | h :: t => t.foldl min h

/-- Python `max` on a list of ints (callers guard nonemptiness). -/
def listMaxInt : List Int → Int
  | [] => 0
  | h :: t => t.foldl max h

/-- `analyze.build_statewide_overview`. -/
def build_statewide_overview (alerts : List Alert)
    (regional_summaries : List RegionalSummary)
    (severe_summary rainfall_summary tropical_summary : Option String) : String :=
  let parts : List String :=
    if ¬ alerts.isEmpty then
      [toString alerts.length ++ " active alert(s) including: "
        ++ String.intercalate ", " (sortedEventTypes alerts)]
    else ["No active weather alerts for Mississippi"]
  let highs := regional_summaries.filterMap (fun s => s.high_temp)
  let lows := regional_summaries.filterMap (fun s => s.low_temp)
  let parts := parts ++
    (if ¬ highs.isEmpty then
      ["Highs ranging from " ++ toString (listMinInt highs) ++ "°F to "
        ++ toString (listMaxInt highs) ++ "°F across the state"]
     else [])
  let parts := parts ++
    (if ¬ lows.isEmpty then
      ["Lows ranging from " ++ toString (listMinInt lows) ++ "°F to "
        ++ toString (listMaxInt lows) ++ "°F"]
     else [])
  let parts := parts ++
    (if pyTruthyStr tropical_summary then ["Tropical: " ++ tropical_summary.getD ""] else [])
  let parts := parts ++
    (if pyTruthyStr severe_summary then ["Severe: " ++ severe_summary.getD ""] else [])
  let parts := parts ++
    (if pyTruthyStr rainfall_summary then ["Rainfall: " ++ rainfall_summary.getD ""] else [])
  String.intercalate ". " parts

/-! ## analyze.py: regional summaries and the assembler -/

/-- Python `dict.update`: fold the bindings of the second dict over the
first. -/
def dictUpdate (d other : List (String × Risk)) : List (String × Risk) :=
  other.foldl (fun d kv => dictSet d kv.1 kv.2) d

/-- `analyze.build_regional_summaries`. -/
def build_regional_summaries (forecasts : List GridForecast) (alerts : List Alert)
    (spc_outlooks : List SPCOutlook) (ero_outlooks : List EROOutlook)
    (counties_config : List County) : List RegionalSummary :=
  let counties_by_region := get_counties_by_region counties_config
  let spc_county_risks :=
    (spc_outlooks.filter (fun o => o.day == 1)).foldl
      (fun d o => dictUpdate d o.county_risks) []
  let ero_county_risks :=
    (ero_outlooks.filter (fun o => o.day == 1)).foldl
      (fun d o => dictUpdate d o.county_risks) []
  forecasts.map (fun forecast =>
    let region := forecast.region
    let region_counties := (dictGet counties_by_region region).getD []
    let risks := region_counties.foldl
      (fun (acc : SPCRisk × EROCategory) county =>
        let county_spc := (dictGet spc_county_risks county).getD (.spc .NONE)
        let county_ero := (dictGet ero_county_risks county).getD (.ero .NONE)
        let ms := match county_spc with
          | .spc r => if spcRiskOrder.indexOf r > spcRiskOrder.indexOf acc.1 then r else acc.1
          | .ero _ => acc.1
        let me := match county_ero with
          | .ero e => if eroRiskOrder.indexOf e > eroRiskOrder.indexOf acc.2 then e else acc.2
          | .spc _ => acc.2
        (ms, me))
      (SPCRisk.NONE, EROCategory.NONE)
    let region_alerts := alerts.filter (fun alert =>
      alert.affected_counties.any (fun affected =>
        region_counties.any (fun county => pyIn county.toLower affected.toLower)))
    let daily_forecasts := extract_daily_forecasts forecast.periods
    let current_temp :=
      if pyTruthyInt forecast.temperature_high then forecast.temperature_high
      else forecast.temperature_low
    let current_wind :=
      if pyTruthyStr forecast.wind_speed then
        some (forecast.wind_speed.getD "" ++ " " ++ pyShowOptStr forecast.wind_direction)
      else none
    { region := region
      anchor_city := forecast.location_name
      current_temp := current_temp
      current_conditions := forecast.conditions
      current_wind := current_wind
      high_temp := forecast.temperature_high
      low_temp := forecast.temperature_low
      pop := forecast.pop
      expected_rainfall := forecast.qpf
      daily_forecasts := daily_forecasts
      spc_risk_day1 := risks.1
      spc_risk_day2 := SPCRisk.NONE
      ero_risk_day1 := risks.2
      conditions_summary := forecast.conditions
      alerts := region_alerts })

/-- The outcome of the five upstream fetches inside `build_briefing`: a
raised exception is an `error`, a normal return is `ok`. -/
structure FetchOutcomes where
  alerts : Except Unit (List Alert)
  forecasts : Except Unit (List GridForecast)
  spc : Except Unit (List SPCOutlook)
  ero : Except Unit (List EROOutlook)
  nhc : Except Unit (List TropicalSystem)

/-- The county-intersection pass over fetched SPC outlooks
(lines 453 to 459 of `analyze.py`). -/
def processSPCOutlooks (resolve : List PolyRing → List String)
    (outl : List SPCOutlook) : List SPCOutlook :=
  outl.map (fun o =>
    if o.polygons.isEmpty then o
    else { o with county_risks := get_counties_in_outlook resolve o.polygons })

/-- The county-intersection pass over fetched ERO outlooks
(lines 471 to 477 of `analyze.py`). -/
def processEROOutlooks (resolve : List PolyRing → List String)
    (outl : List EROOutlook) : List EROOutlook :=
  outl.map (fun o =>
    if o.polygons.isEmpty then o
    else { o with county_risks := get_counties_in_outlook resolve o.polygons })

/-- `analyze.build_briefing`, with the five network fetches given as
explicit outcomes, the spatial resolver abstracted as in
`get_counties_in_outlook`, and the wall-clock derived strings passed in. -/
def build_briefing (resolve : List PolyRing → List String)
    (counties_config : List County) (time_of_day valid_date : String)
    (f : FetchOutcomes) : WeatherBriefing :=
  let alertsR : List Alert × List String × List String :=
    match f.alerts with
    | .ok a => (a, ["NWS Active Alerts API"], [])
    | .error _ => ([], [], ["NWS alerts unavailable"])
  let alerts := alertsR.1
  let alerts_by_type := group_alerts_by_type alerts
  let forecastsR : List GridForecast × List String × List String :=
    match f.forecasts with
    | .ok fc => (fc, ["NWS Gridpoint Forecast API"], [])
    | .error _ => ([], [], ["NWS forecasts unavailable"])
  let spcR : List SPCOutlook × List String × List String :=
    match f.spc with
    | .ok outl =>
      (processSPCOutlooks resolve outl, ["SPC Convective Outlooks (NOAA MapServer)"], [])
    | .error _ => ([], [], ["SPC outlooks unavailable"])
  let eroR : List EROOutlook × List String × List String :=
    match f.ero with
    | .ok outl =>
      (processEROOutlooks resolve outl, ["WPC Excessive Rainfall Outlook (NOAA MapServer)"], [])
    | .error _ => ([], [], ["WPC ERO unavailable"])
  let nhcR : List TropicalSystem × List String × List String :=
    match f.nhc with
    | .ok systems =>
      (systems, if systems.isEmpty then [] else ["NHC Current Storms JSON"], [])
    | .error _ => ([], [], ["NHC data unavailable"])
  let sources_used := alertsR.2.1 ++ forecastsR.2.1 ++ spcR.2.1 ++ eroR.2.1 ++ nhcR.2.1
  let data_gaps := alertsR.2.2 ++ forecastsR.2.2 ++ spcR.2.2 ++ eroR.2.2 ++ nhcR.2.2
  let severe_summary := build_severe_summary spcR.1 counties_config
  let rainfall_summary := build_rainfall_summary eroR.1 forecastsR.1
  let winter_summary := build_winter_summary forecastsR.1
  let tropical_summary := build_tropical_summary nhcR.1
  let regional_summaries :=
    build_regional_summaries forecastsR.1 alerts spcR.1 eroR.1 counties_config
  let statewide_overview :=
    build_statewide_overview alerts regional_summaries severe_summary rainfall_summary
      tropical_summary
  { valid_date := valid_date
    time_of_day := time_of_day
    alerts := alerts
    alerts_by_type := alerts_by_type
    spc_outlooks := spcR.1
    severe_summary := severe_summary
    ero_outlooks := eroR.1
    rainfall_summary := rainfall_summary
    tropical_systems := nhcR.1
    tropical_summary := tropical_summary
    winter_summary := winter_summary
    regional_summaries := regional_summaries
    statewide_overview := statewide_overview
    data_gaps := data_gaps
    sources_used := sources_used }

/-! ## C6: day and night period pairing -/

/-- The merged precipitation probability as the code computes it: the
night value counts only when present and nonzero, and replaces the day
value only when the day value is absent or smaller. -/
def amendedPopMerge (a b : Option Int) : Option Int :=
  match b with
  | none => a
  | some v =>
    if v = 0 then a
    else
      match a with
      | none => some v
      | some dv => if v > dv then some v else some dv

/-- Modelled from the claim wording: the larger of the two period values,
a missing value treated as absent (not as zero). -/
def claim6PopSpec (a b : Option Int) : Option Int :=
  match a, b with
  | none, none => none
  | some x, none => some x
  | none, some y => some y
  | some x, some y => some (max x y)

/-- C6 counterexample: a daytime period with no probability followed by
its night period carrying probability 0.  The claim requires the merged
probability 0 (the larger of the present values); the code ignores the
zero night value (`if next_pop.get("value"):` is plain truthiness) and
leaves the probability absent. -/
theorem claim6_counterexample :
    (extract_daily_forecasts
      [⟨"Monday", true, some 80, none, none, none, none, none⟩,
       ⟨"Monday Night", false, some 60, none, none, none, none, some 0⟩]).map
        (fun d => d.pop) = [none] ∧
    claim6PopSpec none (some 0) = some 0 ∧
    (none : Option Int) ≠ some 0 := by
  decide

lemma mergeNightPeriod_spec (d : DayForecast) (q : Period) :
    (mergeNightPeriod d q).low_temp = q.temperature ∧
    (mergeNightPeriod d q).high_temp = d.high_temp ∧
    (mergeNightPeriod d q).pop = amendedPopMerge d.pop q.pop := by
  unfold mergeNightPeriod amendedPopMerge
  cases q.pop with
  | none => exact ⟨rfl, rfl, rfl⟩
  | some v =>
    dsimp only
    by_cases hv : v = 0
    · rw [if_pos hv, if_pos hv]
      exact ⟨rfl, rfl, rfl⟩
    · rw [if_neg hv, if_neg hv]
      cases d.pop with
      | none => exact ⟨rfl, rfl, rfl⟩
      | some dv =>
        dsimp only
        by_cases hgt : v > dv
        · rw [if_pos hgt, if_pos hgt]
          exact ⟨rfl, rfl, rfl⟩
        · rw [if_neg hgt, if_neg hgt]
          exact ⟨rfl, rfl, rfl⟩

/-- C6 amended: at any point of the scan below the cap of 7, a daytime
period followed by a night-named (or "Tonight") period is merged into one
entry that takes the day temperature as high, the night temperature as
low, and the amended probability merge (a zero night value is ignored
like a missing one); both periods are consumed.  On the spec example the
single output entry is Monday, high 80, low 60, probability 40. -/
theorem claim6_day_night_pairing (p q : Period) (k : Nat) (rest : List Period)
    (hday : p.isDaytime = true)
    (hnight : pyIn "Night" q.name = true ∨ q.name = "Tonight")
    (hk : k < 7) :
    extractGo k (p :: q :: rest)
      = mergeNightPeriod (mkDayForecast p) q :: extractGo (k + 1) rest ∧
    (mergeNightPeriod (mkDayForecast p) q).low_temp = q.temperature ∧
    (mergeNightPeriod (mkDayForecast p) q).high_temp = p.temperature ∧
    (mergeNightPeriod (mkDayForecast p) q).pop = amendedPopMerge p.pop q.pop ∧
    extract_daily_forecasts
      [⟨"Monday", true, some 80, none, none, none, none, some 20⟩,
       ⟨"Monday Night", false, some 60, none, none, none, none, some 40⟩]
      = [{ day_name := "Monday", high_temp := some 80, low_temp := some 60,
           pop := some 40 }] := by
  have hm := mergeNightPeriod_spec (mkDayForecast p) q
  have hcond : (p.isDaytime && (pyIn "Night" q.name || q.name == "Tonight")) = true := by
    rcases hnight with h | h
    · simp [hday, h]
    · simp [hday, h]
  refine ⟨?_, hm.1, ?_, hm.2.2, by decide⟩
  · have hguard : ¬ 7 ≤ k := by omega
    have hstep : extractGo k (p :: q :: rest)
        = if 7 ≤ k then []
          else
            if p.isDaytime && (pyIn "Night" q.name || q.name == "Tonight") then
              mergeNightPeriod (mkDayForecast p) q :: extractGo (k + 1) rest
            else if !p.isDaytime && !(pyIn "Night" q.name) then
              mergeDayPeriod (mkDayForecast p) q :: extractGo (k + 1) rest
            else mkDayForecast p :: extractGo (k + 1) (q :: rest) := rfl
    rw [hstep, if_neg hguard, if_pos hcond]
  · rw [hm.2.1]
    unfold mkDayForecast
    rw [hday]
    simp

/-- C6 witness: the pairing hypotheses discharged at the spec example. -/
theorem claim6_witness :
    extract_daily_forecasts
      [⟨"Monday", true, some 80, none, none, none, none, some 20⟩,
       ⟨"Monday Night", false, some 60, none, none, none, none, some 40⟩]
      = [{ day_name := "Monday", high_temp := some 80, low_temp := some 60,
           pop := some 40 }] :=
  (claim6_day_night_pairing
    ⟨"Monday", true, some 80, none, none, none, none, some 20⟩
    ⟨"Monday Night", false, some 60, none, none, none, none, some 40⟩
    0 [] (by decide) (Or.inl (by decide)) (by decide)).2.2.2.2

/-! ## C9: the statewide overview composition -/

/-- Modelled from the claim wording: the statewide narrative with the
hazard narratives appended in the order severe, rainfall, winter,
tropical, each when non-empty. -/
def claim9StatewideSpec (alerts : List Alert)
    (regional_summaries : List RegionalSummary)
    (severe rainfall winter tropical : Option String) : String :=
  let parts : List String :=
    if ¬ alerts.isEmpty then
      [toString alerts.length ++ " active alert(s) including: "
        ++ String.intercalate ", " (sortedEventTypes alerts)]
    else ["No active weather alerts for Mississippi"]
  let highs := regional_summaries.filterMap (fun s => s.high_temp)
  let lows := regional_summaries.filterMap (fun s => s.low_temp)
  let parts := parts ++
    (if ¬ highs.isEmpty then
      ["Highs ranging from " ++ toString (listMinInt highs) ++ "°F to "
        ++ toString (listMaxInt highs) ++ "°F across the state"]
     else [])
  let parts := parts ++
    (if ¬ lows.isEmpty then
      ["Lows ranging from " ++ toString (listMinInt lows) ++ "°F to "
        ++ toString (listMaxInt lows) ++ "°F"]
     else [])
  let parts := parts ++
    (if pyTruthyStr severe then ["Severe: " ++ severe.getD ""] else []) ++
    (if pyTruthyStr rainfall then ["Rainfall: " ++ rainfall.getD ""] else []) ++
    (if pyTruthyStr winter then ["Winter: " ++ winter.getD ""] else []) ++
    (if pyTruthyStr tropical then ["Tropical: " ++ tropical.getD ""] else [])
  String.intercalate ". " parts

/-- C9 counterexample: with all three passed narratives present the code
emits them in the order tropical, severe, rainfall, and a non-empty
winter narrative appears nowhere, while the claim prescribes severe,
rainfall, winter, tropical. -/
theorem claim9_counterexample :
    build_statewide_overview [] [] (some "S") (some "R") (some "T")
      = "No active weather alerts for Mississippi. Tropical: T. Severe: S. Rainfall: R" ∧
    claim9StatewideSpec [] [] (some "S") (some "R") (some "W") (some "T")
      = "No active weather alerts for Mississippi. Severe: S. Rainfall: R. Winter: W. Tropical: T" ∧
    ("No active weather alerts for Mississippi. Tropical: T. Severe: S. Rainfall: R"
      ≠ "No active weather alerts for Mississippi. Severe: S. Rainfall: R. Winter: W. Tropical: T") := by
  refine ⟨by decide, by decide, by decide⟩

/-- C9 amended: the statewide narrative is composed, in this fixed order,
of the alert part (count and sorted distinct event types, or the
no-alerts sentence), the high range when present, the low range when
present, and then the tropical, severe and rainfall narratives, each
exactly when non-empty; the winter narrative is not part of the statewide
overview (the function does not receive it). -/
theorem claim9_statewide_composition (alerts : List Alert)
    (regional_summaries : List RegionalSummary)
    (severe_summary rainfall_summary tropical_summary : Option String) :
    build_statewide_overview alerts regional_summaries severe_summary
        rainfall_summary tropical_summary
      = String.intercalate ". "
          ((if ¬ alerts.isEmpty then
              [toString alerts.length ++ " active alert(s) including: "
                ++ String.intercalate ", " (sortedEventTypes alerts)]
            else ["No active weather alerts for Mississippi"]) ++
           (if ¬ (regional_summaries.filterMap (fun s => s.high_temp)).isEmpty then
              ["Highs ranging from "
                ++ toString (listMinInt (regional_summaries.filterMap (fun s => s.high_temp)))
                ++ "°F to "
                ++ toString (listMaxInt (regional_summaries.filterMap (fun s => s.high_temp)))
                ++ "°F across the state"]
            else []) ++
           (if ¬ (regional_summaries.filterMap (fun s => s.low_temp)).isEmpty then
              ["Lows ranging from "
                ++ toString (listMinInt (regional_summaries.filterMap (fun s => s.low_temp)))
                ++ "°F to "
                ++ toString (listMaxInt (regional_summaries.filterMap (fun s => s.low_temp)))
                ++ "°F"]
            else []) ++
           (if pyTruthyStr tropical_summary then ["Tropical: " ++ tropical_summary.getD ""]
            else []) ++
           (if pyTruthyStr severe_summary then ["Severe: " ++ severe_summary.getD ""]
            else []) ++
           (if pyTruthyStr rainfall_summary then ["Rainfall: " ++ rainfall_summary.getD ""]
            else [])) := by
  unfold build_statewide_overview
  simp [List.append_assoc]

/-! ## C2: isolation of a failing source -/

/-- C2: when the excessive-rainfall fetch raises, the briefing still
carries the gap string for that source and empty ERO data, the regional
summaries are exactly those built from the successfully fetched forecast
and alert data (one summary per anchor forecast), and when every source
raises the briefing degrades to all gaps, no sources, no summaries and no
hazard narratives. -/
theorem claim2_partial_failure (resolve : List PolyRing → List String)
    (counties_config : List County) (time_of_day valid_date : String)
    (f : FetchOutcomes) (b : WeatherBriefing)
    (hb : b = build_briefing resolve counties_config time_of_day valid_date f)
    (hero : f.ero = .error ()) :
    "WPC ERO unavailable" ∈ b.data_gaps ∧
    b.ero_outlooks = [] ∧
    (∀ alerts forecasts, f.alerts = .ok alerts → f.forecasts = .ok forecasts →
      b.regional_summaries
        = build_regional_summaries forecasts alerts
            (match f.spc with
             | .ok outl => processSPCOutlooks resolve outl
             | .error _ => []) [] counties_config ∧
      b.regional_summaries.length = forecasts.length ∧
      b.regional_summaries.map (fun s => s.anchor_city)
        = forecasts.map (fun fc => fc.location_name)) ∧
    (f.alerts = .error () → f.forecasts = .error () → f.spc = .error () →
     f.nhc = .error () →
      b.data_gaps = ["NWS alerts unavailable", "NWS forecasts unavailable",
        "SPC outlooks unavailable", "WPC ERO unavailable", "NHC data unavailable"] ∧
      b.sources_used = [] ∧
      b.regional_summaries = [] ∧
      b.severe_summary = none ∧ b.rainfall_summary = none ∧
      b.winter_summary = none ∧ b.tropical_summary = none) := by
  subst hb
  rcases f with ⟨fa, ff, fs, fe, fn⟩
  simp only at hero
  subst hero
  rcases fa with a | a <;> rcases ff with x | x <;> rcases fs with y | y <;>
    rcases fn with w | w <;>
    simp [build_briefing, build_regional_summaries, build_severe_summary,
      build_rainfall_summary, build_winter_summary, build_tropical_summary,
      get_max_risk_from_outlooks, get_max_ero_from_outlooks, List.map_map,
      Function.comp, pyTruthyStr]

/-- Fetch outcomes with only the rainfall source failing. -/
def c2Fetch : FetchOutcomes := ⟨.ok [], .ok [], .ok [], .error (), .ok []⟩

/-- C2 witness: the failing-rainfall hypotheses discharged concretely. -/
theorem claim2_witness :
    "WPC ERO unavailable"
      ∈ (build_briefing wResolve [] "Morning" "2026-10-12" c2Fetch).data_gaps :=
  (claim2_partial_failure wResolve [] "Morning" "2026-10-12" c2Fetch _ rfl rfl).1

/-! ## C8: per-source bookkeeping -/

/-- Fetch outcomes where every source returns normally but the tropical
feed returns no storms. -/
def c8Fetch : FetchOutcomes := ⟨.ok [], .ok [], .ok [], .ok [], .ok []⟩

/-- C8 counterexample: when the tropical feed returns normally with an
empty list, neither its source name nor its gap string is recorded, so
"exactly one of the two outcomes per source" fails for that source. -/
theorem claim8_counterexample :
    (build_briefing wResolve [] "Morning" "2026-10-12" c8Fetch).sources_used
      = ["NWS Active Alerts API", "NWS Gridpoint Forecast API",
         "SPC Convective Outlooks (NOAA MapServer)",
         "WPC Excessive Rainfall Outlook (NOAA MapServer)"] ∧
    (build_briefing wResolve [] "Morning" "2026-10-12" c8Fetch).data_gaps = [] ∧
    ¬ ("NHC Current Storms JSON"
        ∈ (build_briefing wResolve [] "Morning" "2026-10-12" c8Fetch).sources_used ∨
       "NHC data unavailable"
        ∈ (build_briefing wResolve [] "Morning" "2026-10-12" c8Fetch).data_gaps) := by
  refine ⟨by decide, by decide, by decide⟩

/-- C8 amended: for the alert, forecast, severe-outlook and
rainfall-outlook sources, a normal return records exactly the source name
and a raised fetch records exactly the gap string with the empty default
used in place of the data; the tropical feed records its gap string on
failure but its source name only when the fetch returns a non-empty list,
so a successful empty tropical fetch records nothing. -/
theorem claim8_per_source_bookkeeping (resolve : List PolyRing → List String)
    (counties_config : List County) (time_of_day valid_date : String)
    (f : FetchOutcomes) (b : WeatherBriefing)
    (hb : b = build_briefing resolve counties_config time_of_day valid_date f) :
    (("NWS Active Alerts API" ∈ b.sources_used ↔ (∃ v, f.alerts = .ok v)) ∧
     ("NWS alerts unavailable" ∈ b.data_gaps ↔ f.alerts = .error ()) ∧
     (f.alerts = .error () → b.alerts = [])) ∧
    (("NWS Gridpoint Forecast API" ∈ b.sources_used ↔ (∃ v, f.forecasts = .ok v)) ∧
     ("NWS forecasts unavailable" ∈ b.data_gaps ↔ f.forecasts = .error ()) ∧
     (f.forecasts = .error () → b.regional_summaries = [])) ∧
    (("SPC Convective Outlooks (NOAA MapServer)" ∈ b.sources_used
        ↔ (∃ v, f.spc = .ok v)) ∧
     ("SPC outlooks unavailable" ∈ b.data_gaps ↔ f.spc = .error ()) ∧
     (f.spc = .error () → b.spc_outlooks = [])) ∧
    (("WPC Excessive Rainfall Outlook (NOAA MapServer)" ∈ b.sources_used
        ↔ (∃ v, f.ero = .ok v)) ∧
     ("WPC ERO unavailable" ∈ b.data_gaps ↔ f.ero = .error ()) ∧
     (f.ero = .error () → b.ero_outlooks = [])) ∧
    (("NHC Current Storms JSON" ∈ b.sources_used
        ↔ (∃ v, f.nhc = .ok v ∧ v ≠ [])) ∧
     ("NHC data unavailable" ∈ b.data_gaps ↔ f.nhc = .error ()) ∧
     (f.nhc = .error () → b.tropical_systems = []) ∧
     (f.nhc = .ok [] →
       ¬ "NHC Current Storms JSON" ∈ b.sources_used ∧
       ¬ "NHC data unavailable" ∈ b.data_gaps)) := by
  subst hb
  rcases f with ⟨fa, ff, fs, fe, fn⟩
  rcases fa with a | a <;> rcases ff with x | x <;> rcases fs with y | y <;>
    rcases fe with z | z <;> rcases fn with w | ⟨_ | ⟨t, ts⟩⟩ <;>
    simp [build_briefing, build_regional_summaries]

/-- C8 witness: the briefing-equation hypothesis discharged concretely. -/
theorem claim8_witness :
    "NWS Active Alerts API"
      ∈ (build_briefing wResolve [] "Morning" "2026-10-12" c8Fetch).sources_used :=
  (claim8_per_source_bookkeeping wResolve [] "Morning" "2026-10-12" c8Fetch _
    rfl).1.1.mpr ⟨[], rfl⟩
